import Mathlib

/-!
Shallow embedding of `scripts/replace-alerts.py`, a one-shot migration
utility that rewrites blocking `alert(...)` calls into `toast.*` calls and
injects the required import.  File text is modelled as `List Char`.  The
script's regular expressions are embedded as data (the exact character
sequences of the Python raw-string patterns) together with a small
backtracking matcher for the one pattern the script actually executes
(the import-statement pattern), and a parenthesis-balance check modelling
the part of Python's `re` pattern compiler that is relevant here: Python
raises `re.error("unbalanced parenthesis")` when a pattern contains an
unescaped `)` at depth 0, which is exactly what happens for the first two
substitution patterns of `replace_alerts` (their raw strings end in
`\\);`, i.e. an escaped backslash followed by a stray `)`).
-/

set_option autoImplicit false
set_option maxRecDepth 100000

/-- File text, modelled as a list of characters. -/
abbrev Txt := List Char

/-- Single quote character `'` (code 39). -/
def chSQ : Char := Char.ofNat 39

/-- Double quote character (code 34). -/
def chDQ : Char := Char.ofNat 34

/-- Backslash character (code 92). -/
def chBS : Char := Char.ofNat 92

/-- Backtick character (code 96). -/
def chBQ : Char := Char.ofNat 96

/-- Boolean test that `p` is an initial segment of `t` (Python `str.startswith`). -/
def hasPre : Txt → Txt → Bool
  | [], _ => true
  | _ :: _, [] => false
  | a :: p, b :: t => a == b && hasPre p t

/-- Boolean substring containment, modelling Python's `needle in haystack`. -/
def containsSub (needle : Txt) : Txt → Bool
  | [] => needle.isEmpty
  | c :: rest => hasPre needle (c :: rest) || containsSub needle rest

/-- ASCII whitespace, modelling the ASCII fragment of Python's regex `\s`
(space, tab, newline, carriage return, vertical tab, form feed).  All
text handled by the script is ASCII, so the Unicode extras of `\s` are
irrelevant here. -/
def isPySpace (c : Char) : Bool :=
  c == Char.ofNat 32 || c == Char.ofNat 9 || c == Char.ofNat 10 ||
  c == Char.ofNat 13 || c == Char.ofNat 11 || c == Char.ofNat 12

/-- Regex `.`: any character except newline. -/
def isDotChar (c : Char) : Bool := c != Char.ofNat 10

/-- One element of a (linear) regular-expression pattern: literal text, a
single character from a class, a lazy star over a class, a greedy star
over a class, or a greedy optional character class.  These five forms
suffice to express the import-statement pattern of the script. -/
inductive RItem where
  | lit : Txt → RItem
  | cls : (Char → Bool) → RItem
  | starLazy : (Char → Bool) → RItem
  | starGreedy : (Char → Bool) → RItem
  | optGreedy : (Char → Bool) → RItem

/-- Backtracking matcher for a sequence of `RItem`s against the head of
`t`, returning the number of characters consumed by the leftmost-preferred
match (lazy stars prefer the shortest extension, greedy stars and options
the longest, with backtracking) — the semantics Python's `re` gives to the
corresponding pattern at a fixed starting position.  `fuel` only forces
structural termination; every recursive call shortens the pair
(text length, item-list length) lexicographically, so any call chain has
length at most `(t.length + 1) * (items.length + 1)` and the fuel passed
by `matchItems` below is always sufficient. -/
def matchSeq : Nat → List RItem → Txt → Option Nat
  | 0, _, _ => none
  | _ + 1, [], _ => some 0
  | fuel + 1, .lit cs :: rest, t =>
    if hasPre cs t then (matchSeq fuel rest (t.drop cs.length)).map (· + cs.length)
    else none
  | fuel + 1, .cls p :: rest, t =>
    match t with
    | [] => none
    | c :: t' => if p c then (matchSeq fuel rest t').map (· + 1) else none
  | fuel + 1, .starLazy p :: rest, t =>
    match matchSeq fuel rest t with
    | some n => some n
    | none =>
      match t with
      | [] => none
      | c :: t' =>
        if p c then (matchSeq fuel (.starLazy p :: rest) t').map (· + 1) else none
  | fuel + 1, .starGreedy p :: rest, t =>
    match t with
    | [] => matchSeq fuel rest []
    | c :: t' =>
      if p c then
        match matchSeq fuel (.starGreedy p :: rest) t' with
        | some n => some (n + 1)
        | none => matchSeq fuel rest (c :: t')
      else matchSeq fuel rest (c :: t')
  | fuel + 1, .optGreedy p :: rest, t =>
    match t with
    | [] => matchSeq fuel rest []
    | c :: t' =>
      if p c then
        match matchSeq fuel rest t' with
        | some n => some (n + 1)
        | none => matchSeq fuel rest (c :: t')
      else matchSeq fuel rest (c :: t')

/-- Sufficient fuel for `matchSeq` (see its docstring). -/
def matchFuel (items : List RItem) (t : Txt) : Nat :=
  (t.length + 1) * (items.length + 2)

/-- Attempt a match of `items` at the start of `t`. -/
def matchItems (items : List RItem) (t : Txt) : Option Nat :=
  matchSeq (matchFuel items t) items t

/-- Left-to-right scan yielding the spans `(start, stop)` of all
non-overlapping matches, continuing after the end of each match —
Python's `re.finditer`.  A zero-width match is recorded and the scan
advances one character (Python's behaviour); the import pattern below can
never match zero characters, so that branch is never exercised by it. -/
def findIterAux : Nat → List RItem → Txt → Nat → List (Nat × Nat)
  | 0, _, _, _ => []
  | fuel + 1, items, t, pos =>
    match matchItems items t with
    | some n =>
      if n == 0 then
        match t with
        | [] => [(pos, pos)]
        | _ :: rest => (pos, pos) :: findIterAux fuel items rest (pos + 1)
      else (pos, pos + n) :: findIterAux fuel items (t.drop n) (pos + n)
    | none =>
      match t with
      | [] => []
      | _ :: rest => findIterAux fuel items rest (pos + 1)

/-- Regex character class `['\"]` (a single or double quote). -/
def isQuote (c : Char) : Bool := c == chSQ || c == chDQ

/-- Embedding of the script's import pattern
`(import\s+.*?from\s+['\"].*?['\"];?\n)` as a linear item sequence:
`\s+` is a class character followed by a greedy star over the class,
`.*?` is a lazy star over any-but-newline, and `;?` is a greedy optional
semicolon.  The outermost capture group has no effect on match spans and
is omitted. -/
def importItems : List RItem :=
  [ .lit ("import".toList), .cls isPySpace, .starGreedy isPySpace,
    .starLazy isDotChar, .lit ("from".toList), .cls isPySpace,
    .starGreedy isPySpace, .cls isQuote, .starLazy isDotChar,
    .cls isQuote, .optGreedy (fun c => c == Char.ofNat 59),
    .lit [Char.ofNat 10] ]

/-- All spans of import statements in `content`:
`list(re.finditer(import_pattern, content))` of the source. -/
def findImports (content : Txt) : List (Nat × Nat) :=
  findIterAux (content.length + 1) importItems content 0

/-- The fixed substring signature checked first by `add_toast_import`:
the 13 characters of `from 'sonner'`. -/
def sonnerSig : Txt := "from ".toList ++ [chSQ] ++ "sonner".toList ++ [chSQ]

/-- The inserted import declaration, the source's
`toast_import = "import { toast } from 'sonner';\n"`. -/
def toastImport : Txt :=
  "import { toast } from ".toList ++ [chSQ] ++ "sonner".toList ++ [chSQ] ++ ";\n".toList

/-- Embedding of the source's `add_toast_import`: return `content`
unchanged when the signature substring is present; otherwise insert the
toast import immediately after the end of the last import-statement
match, or return `content` unchanged when there is no match. -/
def add_toast_import (content : Txt) : Txt :=
  if containsSub sonnerSig content then content
  else
    match (findImports content).getLast? with
    | some m => content.take m.2 ++ toastImport ++ content.drop m.2
    | none => content

/-- Character sequence of the regex class `['\"]` as it appears inside the
script's raw-string patterns. -/
def patQuoteCls : Txt := "[".toList ++ [chSQ, chBS, chDQ] ++ "]".toList

/-- Character sequence of the negated class `[^'\"]`. -/
def patNegQuoteCls : Txt := "[^".toList ++ [chSQ, chBS, chDQ] ++ "]".toList

/-- Exact text of the first substitution pattern of `replace_alerts`
(the raw string
`alert\(['\"]([^'\"]*(?:success|Success|created|Created|updated|Updated|saved|Saved|generated|Generated)[^'\"]*)['\"]\\);`).
Note the final three characters before `;`: an escaped backslash `\\`
followed by a bare `)` — not the escaped parenthesis `\)`. -/
def pat1 : Txt :=
  "alert".toList ++ [chBS] ++ "(".toList ++ patQuoteCls ++ "(".toList ++
  patNegQuoteCls ++ "*(?:success|Success|created|Created|updated|Updated|saved|Saved|generated|Generated)".toList ++
  patNegQuoteCls ++ "*)".toList ++ patQuoteCls ++ [chBS, chBS] ++ ");".toList

/-- Exact text of the second substitution pattern of `replace_alerts`
(the raw string
`alert\(['\"]([^'\"]*(?:failed|Failed|error|Error|invalid|Invalid|please|Please)[^'\"]*)['\"]\\);`),
which ends in the same `\\);` as `pat1`. -/
def pat2 : Txt :=
  "alert".toList ++ [chBS] ++ "(".toList ++ patQuoteCls ++ "(".toList ++
  patNegQuoteCls ++ "*(?:failed|Failed|error|Error|invalid|Invalid|please|Please)".toList ++
  patNegQuoteCls ++ "*)".toList ++ patQuoteCls ++ [chBS, chBS] ++ ");".toList

/-- Exact text of the third substitution pattern, the raw string
containing ``alert\(`([^`]*)`\);``. -/
def pat3 : Txt :=
  "alert".toList ++ [chBS] ++ "(".toList ++ [chBQ] ++ "([^".toList ++ [chBQ] ++
  "]*)".toList ++ [chBQ] ++ [chBS] ++ ");".toList

/-- Exact text of the fourth substitution pattern, the raw string
containing `alert\(([^)]+)\);`. -/
def pat4 : Txt :=
  "alert".toList ++ [chBS] ++ "((".toList ++ "[^)]+)".toList ++ [chBS] ++ ");".toList

/-- Scanner state for the parenthesis-balance check: scanning ordinary
pattern text, or scanning the inside of a `[...]` character class. -/
inductive ReScan where
  | norm
  | insideCls

/-- Depth-counting scan over a pattern text, modelling the part of
Python's `re` compiler that rejects a pattern with an unescaped `)` at
depth 0 or a dangling `(` — the "unbalanced parenthesis" error.  An
escape `\x` consumes the next character, and parentheses inside a
`[...]` class are literals.  (A `]` as leading class member and an
unterminated class are not special-cased: none of the four patterns
above has either.) -/
def parensGo : Nat → ReScan → Txt → Bool
  | d, .norm, [] => d == 0
  | _, .insideCls, [] => false
  | d, .norm, c :: rest =>
    if c == chBS then
      match rest with
      | [] => false
      | _ :: r => parensGo d .norm r
    else if c == Char.ofNat 91 then parensGo d .insideCls rest
    else if c == Char.ofNat 40 then parensGo (d + 1) .norm rest
    else if c == Char.ofNat 41 then
      match d with
      | 0 => false
      | d' + 1 => parensGo d' .norm rest
    else parensGo d .norm rest
  | d, .insideCls, c :: rest =>
    if c == chBS then
      match rest with
      | [] => false
      | _ :: r => parensGo d .insideCls r
    else if c == Char.ofNat 93 then parensGo d .norm rest
    else parensGo d .insideCls rest

/-- A pattern compiles iff its parentheses balance. -/
def reParensOk (pat : Txt) : Bool := parensGo 0 .norm pat

/-- The one `re.error` relevant to this program. -/
inductive ReErr where
  | unbalancedParenthesis
  deriving DecidableEq

/-- Model of `re.sub(pat, repl, content)`: Python first compiles `pat`
and raises `re.error` if it is malformed; only then does it scan and
substitute.  `apply` is the scan-and-substitute step for the given
(compiled) pattern and replacement. -/
def reSub (pat : Txt) (apply : Txt → Txt) (content : Txt) : Except ReErr Txt :=
  if reParensOk pat then .ok (apply content) else .error .unbalancedParenthesis

/-- Scan-and-substitute driver: at each position try `m`; on a match,
emit the replacement and continue after the match, otherwise copy one
character — `re.sub`'s non-overlapping left-to-right substitution.  The
fuel `t.length + 1` is sufficient because every step consumes at least
one character of `t`. -/
def subAll (m : Txt → Option (Nat × Txt)) : Nat → Txt → Txt
  | 0, t => t
  | _ + 1, [] => []
  | fuel + 1, c :: rest =>
    match m (c :: rest) with
    | some (n, repl) =>
      if n == 0 then c :: subAll m fuel rest
      else repl ++ subAll m fuel ((c :: rest).drop n)
    | none => c :: subAll m fuel rest

/-- Matching step for `pat1` and `pat2`.  These patterns never compile
(see `reParensOk`), so Python never reaches their matching phase; an
uncompilable pattern has no matching semantics, and this placeholder is
unreachable from `replace_alerts`. -/
def applyRuleUnreachable (content : Txt) : Txt := content

/-- One match attempt of the third pattern ``alert\(`([^`]*)`\);`` at the
head of `t`, returning (consumed length, replacement).  The body class
`[^`]*` is greedy but excludes the closing backtick, so the maximal
backtick-free run is the only candidate; the replacement is the
source's ``toast.error(`\1`);``. -/
def matchRule3 (t : Txt) : Option (Nat × Txt) :=
  let pre := "alert(".toList ++ [chBQ]
  if hasPre pre t then
    let rest := t.drop pre.length
    let body := rest.takeWhile (fun c => c != chBQ)
    let after := rest.drop body.length
    if hasPre ([chBQ] ++ ");".toList) after then
      some (pre.length + body.length + 3,
            "toast.error(".toList ++ [chBQ] ++ body ++ [chBQ] ++ ");".toList)
    else none
  else none

/-- One match attempt of the fourth pattern `alert\(([^)]+)\);` at the
head of `t`.  The body class `[^)]+` is greedy and excludes `)`, so the
maximal parenthesis-free run (required non-empty) is the only candidate;
the replacement is the source's `toast.error(\1);`. -/
def matchRule4 (t : Txt) : Option (Nat × Txt) :=
  let pre := "alert(".toList
  if hasPre pre t then
    let rest := t.drop pre.length
    let body := rest.takeWhile (fun c => c != Char.ofNat 41)
    let after := rest.drop body.length
    if body.isEmpty then none
    else if hasPre ");".toList after then
      some (pre.length + body.length + 2,
            "toast.error(".toList ++ body ++ ");".toList)
    else none
  else none

/-- Substitution phase of the third rule. -/
def applyRule3 (content : Txt) : Txt := subAll matchRule3 (content.length + 1) content

/-- Substitution phase of the fourth rule. -/
def applyRule4 (content : Txt) : Txt := subAll matchRule4 (content.length + 1) content

/-- Embedding of the source's `replace_alerts`: the four `re.sub` calls
in order.  Each call compiles its pattern first; a malformed pattern
raises, which aborts the whole function (modelled by `Except`). -/
def replace_alerts (content : Txt) : Except ReErr Txt := do
  let c1 ← reSub pat1 applyRuleUnreachable content
  let c2 ← reSub pat2 applyRuleUnreachable c1
  let c3 ← reSub pat3 applyRule3 c2
  reSub pat4 applyRule4 c3

/-- Exceptions that the `try` block of `process_alert_file` can catch:
a regex error from `replace_alerts`, or an I/O error (carrying its
reason, as Python's exception message) from `open`/`read`/`write`. -/
inductive PyExc where
  | reError : ReErr → PyExc
  | ioError : String → PyExc
  deriving DecidableEq

/-- Per-file status line printed by `process_alert_file`: the
"Processed", "No changes", or "Error processing ...: reason" message. -/
inductive FileStatus where
  | processed
  | noChanges
  | errorCaught : PyExc → FileStatus
  deriving DecidableEq

/-- Result of `process_alert_file`: its boolean return value, the single
full-content write it performed or attempted (`none` when no write
happened), and the status line it printed. -/
structure FileResult where
  ret : Bool
  written : Option Txt
  status : FileStatus
  deriving DecidableEq

/-- Embedding of the source's `process_alert_file`, parameterised by the
outcome of reading the file (`rd`) and by the outcome of writing a given
text (`wr`) — the I/O environment.  Mirrors the source: read, snapshot
`original_content`, `add_toast_import`, `replace_alerts`, write only if
the result differs from the original, and a `try/except` around the
whole body that turns any exception into a logged status and a `False`
return. -/
def process_alert_file (rd : Except PyExc Txt) (wr : Txt → Except PyExc Unit) :
    FileResult :=
  match rd with
  | .error e => ⟨false, none, .errorCaught e⟩
  | .ok content =>
    let original := content
    let c1 := add_toast_import content
    match replace_alerts c1 with
    | .error e => ⟨false, none, .errorCaught (.reError e)⟩
    | .ok c2 =>
      if c2 ≠ original then
        match wr c2 with
        | .ok _ => ⟨true, some c2, .processed⟩
        | .error e => ⟨false, some c2, .errorCaught e⟩
      else ⟨false, none, .noChanges⟩

/-- One manifest entry as the orchestrator sees it: whether the path
exists, and the I/O environment used for it when it does. -/
structure FileSpec where
  present : Bool
  rd : Except PyExc Txt
  wr : Txt → Except PyExc Unit

/-- The run summary accumulated by `main`: the three counters of
`Summary: {processed} processed, {skipped} skipped, {errors} errors`,
and the sequence of per-file report lines (`none` is the
"File not found" line printed for a missing path). -/
structure Summary where
  processed : Nat
  skipped : Nat
  errors : Nat
  statuses : List (Option FileStatus)
  deriving DecidableEq

/-- Concatenation of two summaries (counters add, reports append). -/
def Summary.app (a b : Summary) : Summary :=
  ⟨a.processed + b.processed, a.skipped + b.skipped, a.errors + b.errors,
   a.statuses ++ b.statuses⟩

/-- Embedding of the loop in the source's `main`: for each manifest
entry, a missing path increments `errors`; otherwise
`process_alert_file` runs and its boolean return decides between
`processed` and `skipped`.  The recursion processes the head and then
the rest, which computes the same counters and the same report sequence
as the source's left-to-right loop. -/
def mainRun : List FileSpec → Summary
  | [] => ⟨0, 0, 0, []⟩
  | f :: rest =>
    let s := mainRun rest
    if f.present then
      let r := process_alert_file f.rd f.wr
      if r.ret then ⟨s.processed + 1, s.skipped, s.errors, some r.status :: s.statuses⟩
      else ⟨s.processed, s.skipped + 1, s.errors, some r.status :: s.statuses⟩
    else ⟨s.processed, s.skipped, s.errors + 1, none :: s.statuses⟩

/-- Scenario A input of the spec: `alert('Permit created successfully');`. -/
def scenarioA : Txt :=
  "alert(".toList ++ [chSQ] ++ "Permit created successfully".toList ++ [chSQ] ++ ");".toList

/-- Scenario B input of the spec: `alert('Please select a valid date');`. -/
def scenarioB : Txt :=
  "alert(".toList ++ [chSQ] ++ "Please select a valid date".toList ++ [chSQ] ++ ");".toList

/-- Scenario C input of the spec: an alert with a template-literal
argument, ``alert(`Failed to save ${name}`);``. -/
def scenarioC : Txt :=
  "alert(".toList ++ [chBQ] ++ "Failed to save ${name}".toList ++ [chBQ] ++ ");".toList

/-- A string-literal alert whose argument is an upper-case keyword:
`alert('SUCCESS');`. -/
def upperKeywordCall : Txt :=
  "alert(".toList ++ [chSQ] ++ "SUCCESS".toList ++ [chSQ] ++ ");".toList

/-- A file with the notification import already present and zero alert
calls (the spec's Scenario F shape). -/
def importedNoAlert : Txt := toastImport ++ "const x = 1;\n".toList

/-- A small file with one import statement (`import a from 'b';`) and no
notification import. -/
def exampleImportFile : Txt :=
  "import a from ".toList ++ [chSQ] ++ "b".toList ++ [chSQ] ++ ";\nconst y = 2;\n".toList

/-- A file whose only occurrence of `from 'sonner'` is inside a comment,
while a real import statement is also present. -/
def commentSonnerFile : Txt :=
  "// mention of from ".toList ++ [chSQ] ++ "sonner".toList ++ [chSQ] ++
  " in a comment\nimport a from ".toList ++ [chSQ] ++ "b".toList ++ [chSQ] ++
  ";\nconst y = 2;\n".toList

/-- A write environment in which every write succeeds. -/
def wrOK : Txt → Except PyExc Unit := fun _ => Except.ok ()

/-- A manifest entry whose path exists but whose read fails with a
permission error. -/
def readFailSpec : FileSpec := ⟨true, .error (.ioError "Permission denied"), wrOK⟩

/-- A manifest entry whose path exists and whose read succeeds with
`exampleImportFile`. -/
def okFileSpec : FileSpec := ⟨true, .ok exampleImportFile, wrOK⟩

theorem hasPre_self_append (p y : Txt) : hasPre p (p ++ y) = true := by
  induction p with
  | nil => rfl
  | cons a p ih => simp [hasPre, ih]

theorem containsSub_mid (x n y : Txt) : containsSub n (x ++ n ++ y) = true := by
  induction x with
  | nil =>
    cases n with
    | nil =>
      cases y with
      | nil => rfl
      | cons b y => simp [containsSub, hasPre]
    | cons a n => simp [containsSub, hasPre, hasPre_self_append]
  | cons a x ih =>
    have ih' : containsSub n (x ++ (n ++ y)) = true := by
      simpa [List.append_assoc] using ih
    simp [containsSub, ih']

theorem toastImport_decomp :
    toastImport = "import { toast } ".toList ++ sonnerSig ++ ";\n".toList := by
  decide

theorem replace_alerts_errors (c : Txt) :
    replace_alerts c = .error ReErr.unbalancedParenthesis := by
  have h : reParensOk pat1 = false := by decide
  simp [replace_alerts, reSub, h, Bind.bind, Except.bind]

theorem Summary.app_nil (b : Summary) : Summary.app ⟨0, 0, 0, []⟩ b = b := by
  cases b with
  | mk p s e st => simp [Summary.app]

theorem mainRun_append (xs ys : List FileSpec) :
    mainRun (xs ++ ys) = (mainRun xs).app (mainRun ys) := by
  induction xs with
  | nil => rw [List.nil_append]; exact (Summary.app_nil (mainRun ys)).symm
  | cons x xs ih =>
    cases hx : x.present with
    | true =>
      cases hr : (process_alert_file x.rd x.wr).ret with
      | true =>
        simp [mainRun, hx, hr, ih, Summary.app, Nat.add_comm, Nat.add_assoc,
          Nat.add_left_comm]
      | false =>
        simp [mainRun, hx, hr, ih, Summary.app, Nat.add_comm, Nat.add_assoc,
          Nat.add_left_comm]
    | false =>
      simp [mainRun, hx, ih, Summary.app, Nat.add_comm, Nat.add_assoc,
        Nat.add_left_comm]

/-- C1: at the Scenario A input `alert('Permit created successfully');`
the pipeline does not produce the specified output: the Import
Normalizer leaves the text unchanged (the snippet contains no import
statement to anchor the insertion), and the Call-Site Rewriter raises
`re.error` ("unbalanced parenthesis") because its first pattern does not
compile, so no toast import is inserted and the call is never rewritten
to a success-severity notification. -/
theorem scenarioA_pipeline_raises :
    add_toast_import scenarioA = scenarioA ∧
    replace_alerts (add_toast_import scenarioA) =
      .error ReErr.unbalancedParenthesis :=
  ⟨by decide, replace_alerts_errors _⟩

/-- C2: at the Scenario B input `alert('Please select a valid date');`
the Call-Site Rewriter does not produce an error-severity rewrite: the
error-keyword pattern (rule 2) itself fails to compile — as does rule 1,
whose compilation failure is raised first — so `replace_alerts` raises
instead of rewriting. -/
theorem scenarioB_rewriter_raises :
    reParensOk pat2 = false ∧
    replace_alerts scenarioB = .error ReErr.unbalancedParenthesis :=
  ⟨by decide, replace_alerts_errors _⟩

/-- C3: at the Scenario C input ``alert(`Failed to save ${name}`);`` the
template-literal rule (rule 3) is never reached: its own pattern is
well-formed, and its substitution step would rewrite the call to
``toast.error(`Failed to save ${name}`);`` with the identical template
argument, but `replace_alerts` raises at rule 1 before rule 3 runs. -/
theorem scenarioC_rewriter_raises :
    reParensOk pat3 = true ∧
    applyRule3 scenarioC =
      "toast.error(".toList ++ [chBQ] ++ "Failed to save ${name}".toList ++
        [chBQ] ++ ");".toList ∧
    replace_alerts scenarioC = .error ReErr.unbalancedParenthesis :=
  ⟨by decide, by decide, replace_alerts_errors _⟩

/-- C4 counterexample: the input `alert('SUCCESS');` has a string-literal
argument containing the keyword `success` in upper case, yet the
rewriter does not rewrite it to `toast.success('SUCCESS');` — it raises,
refuting the claimed case-insensitive keyword classification at this
concrete input. -/
theorem uppercase_keyword_not_rewritten_cex :
    replace_alerts upperKeywordCall ≠
      Except.ok ("toast.success(".toList ++ [chSQ] ++ "SUCCESS".toList ++
        [chSQ] ++ ");".toList) ∧
    replace_alerts upperKeywordCall = .error ReErr.unbalancedParenthesis := by
  refine ⟨?_, replace_alerts_errors _⟩
  simp [replace_alerts_errors]

/-- C4 amended: the keyword rules rewrite nothing at all — the patterns
of rules 1 and 2 are rejected by the regex compiler (the stray backslash
leaves an unbalanced parenthesis), so `replace_alerts` raises on every
input; in particular no casing of any keyword is ever matched, and the
patterns as written enumerate only the lowercase and initial-capitalised
keyword variants rather than being case-insensitive. -/
theorem keyword_rules_rewrite_nothing (c : Txt) :
    replace_alerts c = .error ReErr.unbalancedParenthesis ∧
    reParensOk pat1 = false ∧ reParensOk pat2 = false :=
  ⟨replace_alerts_errors c, by decide, by decide⟩

/-- C5: the Import Normalizer is idempotent — applying
`add_toast_import` twice yields the same text as applying it once, for
every input text.  When an insertion happens, the inserted declaration
itself contains the signature substring `from 'sonner'`, so the second
application short-circuits; otherwise the text is unchanged and the
second application repeats the first. -/
theorem add_toast_import_idempotent (c : Txt) :
    add_toast_import (add_toast_import c) = add_toast_import c := by
  cases h : containsSub sonnerSig c with
  | true => simp [add_toast_import, h]
  | false =>
    cases hm : (findImports c).getLast? with
    | none => simp [add_toast_import, h, hm]
    | some m =>
      have key :
          containsSub sonnerSig (c.take m.2 ++ (toastImport ++ c.drop m.2)) = true := by
        rw [toastImport_decomp]
        have := containsSub_mid (c.take m.2 ++ "import { toast } ".toList)
          sonnerSig (";\n".toList ++ c.drop m.2)
        simpa [List.append_assoc] using this
      simp [add_toast_import, h, hm, key]

/-- C6: for every text without the signature substring, if the import
pattern has at least one match then `add_toast_import` inserts the
toast import immediately after the end of the last match, leaving all text
before and after that single insertion point intact; with no match the
text is returned unchanged. -/
theorem add_toast_import_insertion_spec (c : Txt)
    (h : containsSub sonnerSig c = false) :
    (∀ m, (findImports c).getLast? = some m →
      add_toast_import c = c.take m.2 ++ toastImport ++ c.drop m.2 ∧
      c.take m.2 ++ c.drop m.2 = c) ∧
    ((findImports c).getLast? = none → add_toast_import c = c) := by
  constructor
  · intro m hm
    exact ⟨by simp [add_toast_import, h, hm], List.take_append_drop m.2 c⟩
  · intro hm
    simp [add_toast_import, h, hm]

/-- C6 witness: on the concrete file `import a from 'b';\nconst y = 2;\n`
the last (only) import match ends at offset 19 and the toast import is
inserted exactly there. -/
theorem add_toast_import_insertion_spec_witness :
    add_toast_import exampleImportFile =
      exampleImportFile.take 19 ++ toastImport ++ exampleImportFile.drop 19 ∧
    exampleImportFile.take 19 ++ exampleImportFile.drop 19 = exampleImportFile :=
  (add_toast_import_insertion_spec exampleImportFile (by decide)).1 (0, 19) (by decide)

/-- C7 counterexample: a one-file batch whose file exists but whose read
fails with "Permission denied" ends with the summary counters
`0 processed, 1 skipped, 0 errors` — the failure is caught and logged
with its reason, but it is counted under `skipped`, not under `errors`
as the claim states (the `errors` counter only ever counts missing
manifest paths). -/
theorem read_failure_counted_skipped_cex :
    mainRun [readFailSpec] =
      ⟨0, 1, 0, [some (.errorCaught (.ioError "Permission denied"))]⟩ := by
  decide

/-- C7 amended: every per-file failure — a failing read, a failing
transformation (an exception out of `replace_alerts` on the read
content), or a failing write of the transformed text — is caught at
that file's granularity, logged with the underlying reason, counted as
skipped (not as an error), and the rest of the batch is processed
exactly as it would be without the failing file: the run over
`pre ++ f :: post` is the run over `pre`, then one skipped entry whose
report carries the exception, then the run over `post`. -/
theorem file_failure_caught_logged_skipped (pre post : List FileSpec)
    (f : FileSpec) (e : PyExc) (hp : f.present = true)
    (hfail :
      f.rd = .error e ∨
      (∃ content r, f.rd = .ok content ∧
        replace_alerts (add_toast_import content) = .error r ∧
        e = .reError r) ∨
      (∃ content t, f.rd = .ok content ∧
        replace_alerts (add_toast_import content) = .ok t ∧ t ≠ content ∧
        f.wr t = .error e)) :
    mainRun (pre ++ f :: post) =
      (mainRun pre).app
        (Summary.app ⟨0, 1, 0, [some (.errorCaught e)]⟩ (mainRun post)) := by
  have hproc : (process_alert_file f.rd f.wr).ret = false ∧
      (process_alert_file f.rd f.wr).status = .errorCaught e := by
    rcases hfail with h | ⟨content, r, hc, hr, he⟩ | ⟨content, t, hc, ht, hne, hw⟩
    · simp [process_alert_file, h]
    · subst he
      simp [process_alert_file, hc, hr]
    · simp [process_alert_file, hc, ht, hne, hw]
  rw [mainRun_append]
  have hone : mainRun (f :: post) =
      Summary.app ⟨0, 1, 0, [some (.errorCaught e)]⟩ (mainRun post) := by
    simp [mainRun, hp, hproc.1, hproc.2, Summary.app, Nat.add_comm]
  rw [hone]

/-- C7 amended, witness: two one-file runs, one per satisfiable failure
mode.  First the dominant path: the file is read successfully and the
transformation raises (the regex error), contributing one skipped entry
that carries the regex exception and nothing to the error counter.
Then a file whose read fails with "Permission denied", contributing one
skipped entry carrying the I/O exception. -/
theorem file_failure_caught_logged_skipped_witness :
    (mainRun [okFileSpec] =
      (mainRun []).app
        (Summary.app ⟨0, 1, 0,
            [some (.errorCaught (.reError ReErr.unbalancedParenthesis))]⟩
          (mainRun []))) ∧
    (mainRun [readFailSpec] =
      (mainRun []).app
        (Summary.app ⟨0, 1, 0,
            [some (.errorCaught (.ioError "Permission denied"))]⟩
          (mainRun []))) :=
  ⟨file_failure_caught_logged_skipped [] [] okFileSpec
      (.reError ReErr.unbalancedParenthesis) rfl
      (Or.inr (Or.inl
        ⟨exampleImportFile, ReErr.unbalancedParenthesis, rfl, rfl, rfl⟩)),
    file_failure_caught_logged_skipped [] [] readFailSpec
      (.ioError "Permission denied") rfl (Or.inl rfl)⟩

/-- C8: a file with zero alert calls and the notification import already
present (the spec's Scenario F) never reaches the "no changes" branch:
`replace_alerts` raises on its content, so `process_alert_file` reports
it through the error path (status `errorCaught`, not `noChanges`),
returns `False`, and performs no write. -/
theorem noAlert_file_error_path :
    process_alert_file (.ok importedNoAlert) wrOK =
      ⟨false, none, .errorCaught (.reError ReErr.unbalancedParenthesis)⟩ := by
  simp [process_alert_file, replace_alerts_errors]

/-- C9: any write `process_alert_file` performs or attempts carries
exactly the fully transformed text, computed in memory beforehand: either
no write happens at all, or the read succeeded, the whole transformation
succeeded on the read content, its output differs from the original and
is precisely the text handed to the single full-content write.  In
particular a failure in any step of the transformation leaves the file
on disk unchanged. -/
theorem write_only_full_transformed_text (rd : Except PyExc Txt)
    (wr : Txt → Except PyExc Unit) :
    (process_alert_file rd wr).written = none ∨
    (∃ content t, rd = .ok content ∧
      replace_alerts (add_toast_import content) = .ok t ∧ t ≠ content ∧
      (process_alert_file rd wr).written = some t) := by
  cases rd with
  | error e => exact Or.inl rfl
  | ok content => exact Or.inl (by simp [process_alert_file, replace_alerts_errors])

/-- C10: the presence check of the Import Normalizer is a plain
substring test — any text containing the 13-character signature
`from 'sonner'` anywhere (comment, string literal, any line) is returned
unchanged, with no import inserted. -/
theorem sonner_substring_no_insert (c : Txt)
    (h : containsSub sonnerSig c = true) : add_toast_import c = c := by
  simp [add_toast_import, h]

/-- C10 witness: a file whose only `from 'sonner'` occurrence sits in a
comment, with a genuine import statement present that would otherwise
anchor an insertion, is returned unchanged. -/
theorem sonner_substring_no_insert_witness :
    add_toast_import commentSonnerFile = commentSonnerFile :=
  sonner_substring_no_insert commentSonnerFile (by decide)
